import Mathlib

/-!
Shallow embedding of the RogerRoger MCP server (src/index.ts) and proofs
about its dispatch and request-translation layer.

The source is a single TypeScript file.  The embedding below models:
 - boundary JSON values (`JVal`) and JS objects as ordered association
   lists (`JObj`) -- JS objects have unique keys, which is recorded as a
   hypothesis where a theorem needs it;
 - the configuration object (`Config`, src/index.ts lines 20-24);
 - the outbound HTTP layer: `makeRequest` (lines 626-663), with the
   network modelled as an oracle `Fetch` mapping the built request to
   either a transport rejection or a response; the response carries the
   outcome of `response.json()` as an `Except String JVal` since the
   JSON decoder itself lives in node-fetch, outside this repository;
 - the 22 per-tool handlers (lines 665-1011);
 - the call-tool dispatcher (lines 523-623) as `dispatch`/`callTool`,
   which records the list of HTTP requests actually issued so that
   "performs no network call" claims are statable.
-/

namespace RogerRogerMCP

/-- A scalar JSON/JS value as it appears at the tool-argument boundary.
`jundefined` models the JavaScript `undefined` value (in particular the
result of reading an absent object property). -/
inductive JVal where
  | jundefined
  | jnull
  | jbool (b : Bool)
  | jnum (n : Int)
  | jstr (s : String)
deriving DecidableEq, Repr

/-- JavaScript truthiness of a scalar value: `undefined`, `null`,
`false`, `0` and `""` are falsy, everything else is truthy. -/
def JVal.truthy : JVal → Bool
  | .jundefined => false
  | .jnull => false
  | .jbool b => b
  | .jnum n => n != 0
  | .jstr s => s != ""

/-- JavaScript string coercion `String(v)` (which agrees with
`v.toString()` on the values the handlers ever coerce, since falsy
`null`/`undefined` are filtered out before any `.toString()` call). -/
def JVal.jsToString : JVal → String
  | .jundefined => "undefined"
  | .jnull => "null"
  | .jbool true => "true"
  | .jbool false => "false"
  | .jnum n => toString n
  | .jstr s => s

/-- A JS object: ordered fields.  A real JS object has pairwise distinct
keys; theorems that depend on it take that as a hypothesis or use
first-occurrence lookup, which is what property access does anyway. -/
abbrev JObj := List (String × JVal)

/-- Property read `o[k]`: the first binding of `k`, and the JS value
`undefined` when the property is absent. -/
def getProp (o : JObj) (k : String) : JVal :=
  match o.lookup k with
  | some v => v
  | none => .jundefined

/-- The JS `in` operator: does the object have the property at all. -/
def hasProp (o : JObj) (k : String) : Bool :=
  (o.lookup k).isSome

/-- The rest-spread `const (minus id) = args` used by the update handlers
(src/index.ts lines 713, 826, 904, 982): every field except `id`, in
original order. -/
def removeId (o : JObj) : JObj :=
  o.filter (fun p => p.1 ≠ "id")

/-- The configuration loaded at startup (src/index.ts lines 20-24).
`apiKey = ""` models an absent ROGERROGER_API_KEY environment variable. -/
structure Config where
  apiKey : String
  baseUrl : String
deriving DecidableEq, Repr

/-- The headers set by makeRequest (src/index.ts lines 646-649). -/
def stdHeaders (apiKey : String) : List (String × String) :=
  [("X-API-KEY", apiKey), ("Content-Type", "application/json")]

/-- An outbound HTTP request as handed to `fetch` (src/index.ts lines
651-655).  The body is kept structured; the source serializes it with
JSON.stringify just before sending. -/
structure HttpRequest where
  url : String
  method : String
  headers : List (String × String)
  body : Option JObj
deriving DecidableEq, Repr

/-- What the network does with a request: either the fetch promise
rejects with a message (DNS/connection failure), or a response arrives
with a status, a body text (as read by `response.text()`), and the
outcome of `response.json()` -- `Except.error` models a JSON parse
rejection with its message. -/
inductive FetchOutcome where
  | networkError (msg : String)
  | response (status : Nat) (bodyText : String) (jsonResult : Except String JVal)

/-- The network oracle. -/
def Fetch := HttpRequest → FetchOutcome

/-- One element of the MCP result content array. -/
structure ContentItem where
  type : String
  text : String
deriving DecidableEq, Repr

/-- The uniform result envelope returned for every invocation. -/
structure Envelope where
  content : List ContentItem
deriving DecidableEq, Repr

/-- The single-text envelope shape every handler returns. -/
def textEnvelope (t : String) : Envelope :=
  ⟨[⟨"text", t⟩]⟩

/-- The envelope built by the dispatcher catch block (src/index.ts lines
611-622): the thrown message behind an "Error: " prefix. -/
def errorEnvelope (msg : String) : Envelope :=
  textEnvelope ("Error: " ++ msg)

/-- One uppercase hexadecimal digit. -/
def hexDigitChar (n : Nat) : Char :=
  if n < 10 then Char.ofNat (48 + n) else Char.ofNat (55 + n)

/-- UTF-8 bytes of a character, for percent-encoding. -/
def utf8Bytes (c : Char) : List Nat :=
  let n := c.toNat
  if n < 128 then [n]
  else if n < 2048 then [192 + n / 64, 128 + n % 64]
  else if n < 65536 then [224 + n / 4096, 128 + (n / 64) % 64, 128 + n % 64]
  else [240 + n / 262144, 128 + (n / 4096) % 64, 128 + (n / 64) % 64, 128 + n % 64]

/-- Percent-encode one byte. -/
def percentByte (b : Nat) : String :=
  String.mk ['%', hexDigitChar (b / 16), hexDigitChar (b % 16)]

/-- Characters URLSearchParams leaves unencoded
(application/x-www-form-urlencoded serialization). -/
def isUnreservedForm (c : Char) : Bool :=
  c.isAlphanum || c = '*' || c = '-' || c = '.' || c = '_'

/-- Encode one character the way URLSearchParams.toString does. -/
def formEncodeChar (c : Char) : String :=
  if c = ' ' then "+"
  else if isUnreservedForm c then String.singleton c
  else String.join ((utf8Bytes c).map percentByte)

/-- Encode a whole key or value. -/
def formEncode (s : String) : String :=
  String.join (s.toList.map formEncodeChar)

/-- `new URLSearchParams(params).toString()` (src/index.ts line 642):
key=value pairs joined with ampersands, in insertion order. -/
def encodeQuery (ps : List (String × String)) : String :=
  String.intercalate "&" (ps.map (fun p => formEncode p.1 ++ "=" ++ formEncode p.2))

/-- The options object accepted by makeRequest (src/index.ts lines
628-632), with the source's defaults made explicit at each call site. -/
structure ReqOptions where
  method : String
  body : Option JObj
  params : Option (List (String × String))

/-- The full URL built by makeRequest (src/index.ts lines 639-644): the
`if (params)` guard fires for every params record passed, including an
empty one (an empty JS object is truthy), so the "?" separator is
appended whenever `opts.params` is present at all. -/
def buildUrl (cfg : Config) (endpoint : String) : Option (List (String × String)) → String
  | none => cfg.baseUrl ++ endpoint
  | some ps => cfg.baseUrl ++ endpoint ++ "?" ++ encodeQuery ps

/-- makeRequest (src/index.ts lines 626-663).  Returns the handler-level
outcome (`.ok` parsed JSON, `.error` thrown message) together with the
list of HTTP requests actually issued.  `response.json()` is awaited on
every 2xx response, so its parse outcome is returned even when the
caller discards the payload. -/
def makeRequest (cfg : Config) (f : Fetch) (endpoint : String) (opts : ReqOptions) :
    Except String JVal × List HttpRequest :=
  if cfg.apiKey = "" then
    (.error "ROGERROGER_API_KEY environment variable is required", [])
  else
    let req : HttpRequest :=
      ⟨buildUrl cfg endpoint opts.params, opts.method, stdHeaders cfg.apiKey, opts.body⟩
    match f req with
    | .networkError msg => (.error msg, [req])
    | .response status bodyText jsonResult =>
      if 200 ≤ status ∧ status < 300 then
        (jsonResult, [req])
      else
        (.error ("HTTP " ++ toString status ++ ": " ++ bodyText), [req])

/-- The result of one handler: the envelope or the thrown message, plus
the requests issued. -/
abbrev HandlerResult := Except String Envelope × List HttpRequest

/-- Wrap a makeRequest outcome into the single-text envelope every
handler builds from its payload. -/
def toTextResult (r : Except String JVal × List HttpRequest) (g : JVal → String) :
    HandlerResult :=
  (r.1.map (fun d => textEnvelope (g d)), r.2)

/-- JSON string escaping of one character, as JSON.stringify performs it. -/
def jsonEscapeChar (c : Char) : String :=
  if c = '"' then "\\\""
  else if c = '\\' then "\\\\"
  else if c = '\n' then "\\n"
  else if c = '\r' then "\\r"
  else if c = '\t' then "\\t"
  else if c = Char.ofNat 8 then "\\b"
  else if c = Char.ofNat 12 then "\\f"
  else if c.toNat < 32 then
    String.mk ['\\', 'u', '0', '0', hexDigitChar (c.toNat / 16), hexDigitChar (c.toNat % 16)]
  else String.singleton c

/-- JSON.stringify(data, null, 2) restricted to the scalar payloads
`JVal` models (on scalars the indent argument is irrelevant; stringify
of `undefined` is the undefined value, which renders as "undefined"
inside the template literals that embed it). -/
def jsonStringify : JVal → String
  | .jundefined => "undefined"
  | .jnull => "null"
  | .jbool true => "true"
  | .jbool false => "false"
  | .jnum n => toString n
  | .jstr s => "\"" ++ String.join (s.toList.map jsonEscapeChar) ++ "\""

/-- One conditional query-parameter assignment of the list handlers:
`if (args.k) params.k = String(args.k)` contributes the binding exactly
when the input value is present and truthy (src/index.ts lines 667-669,
746-748, 780-782, 859-860, 937-938). -/
def qparam (args : JObj) (key : String) : List (String × String) :=
  if (getProp args key).truthy then [(key, (getProp args key).jsToString)] else []

/-- The query record built by getPeople (src/index.ts lines 666-669). -/
def getPeopleParams (args : JObj) : List (String × String) :=
  qparam args "page" ++ qparam args "itemsPerPage" ++ qparam args "q"

/-- The query record built by getTasks (src/index.ts lines 745-748). -/
def getTasksParams (args : JObj) : List (String × String) :=
  qparam args "page" ++ qparam args "itemsPerPage" ++ qparam args "status"

/-- The query record built by getOrganizations (src/index.ts lines 779-782). -/
def getOrganizationsParams (args : JObj) : List (String × String) :=
  qparam args "page" ++ qparam args "itemsPerPage" ++ qparam args "q"

/-- The query record built by getLists (src/index.ts lines 858-860). -/
def getListsParams (args : JObj) : List (String × String) :=
  qparam args "page" ++ qparam args "itemsPerPage"

/-- The query record built by getTags (src/index.ts lines 936-938). -/
def getTagsParams (args : JObj) : List (String × String) :=
  qparam args "page" ++ qparam args "itemsPerPage"

/-- getPeople handler (src/index.ts lines 665-681). -/
def getPeople (cfg : Config) (f : Fetch) (args : JObj) : HandlerResult :=
  toTextResult (makeRequest cfg f "/people" ⟨"GET", none, some (getPeopleParams args)⟩)
    (fun d => jsonStringify d)

/-- getPerson handler (src/index.ts lines 683-694). -/
def getPerson (cfg : Config) (f : Fetch) (id : String) : HandlerResult :=
  toTextResult (makeRequest cfg f ("/people/" ++ id) ⟨"GET", none, none⟩)
    (fun d => jsonStringify d)

/-- createPerson handler (src/index.ts lines 696-710). -/
def createPerson (cfg : Config) (f : Fetch) (args : JObj) : HandlerResult :=
  toTextResult (makeRequest cfg f "/people" ⟨"POST", some args, none⟩)
    (fun d => "Person created successfully: " ++ jsonStringify d)

/-- updatePerson handler (src/index.ts lines 712-727). -/
def updatePerson (cfg : Config) (f : Fetch) (id : String) (args : JObj) : HandlerResult :=
  toTextResult (makeRequest cfg f ("/people/" ++ id) ⟨"PUT", some (removeId args), none⟩)
    (fun d => "Person updated successfully: " ++ jsonStringify d)

/-- deletePerson handler (src/index.ts lines 729-742); the makeRequest
payload is awaited and then discarded. -/
def deletePerson (cfg : Config) (f : Fetch) (id : String) : HandlerResult :=
  toTextResult (makeRequest cfg f ("/people/" ++ id) ⟨"DELETE", none, none⟩)
    (fun _ => "Person with ID " ++ id ++ " deleted successfully")

/-- getTasks handler (src/index.ts lines 744-760). -/
def getTasks (cfg : Config) (f : Fetch) (args : JObj) : HandlerResult :=
  toTextResult (makeRequest cfg f "/tasks" ⟨"GET", none, some (getTasksParams args)⟩)
    (fun d => jsonStringify d)

/-- createTask handler (src/index.ts lines 762-776). -/
def createTask (cfg : Config) (f : Fetch) (args : JObj) : HandlerResult :=
  toTextResult (makeRequest cfg f "/tasks" ⟨"POST", some args, none⟩)
    (fun d => "Task created successfully: " ++ jsonStringify d)

/-- getOrganizations handler (src/index.ts lines 778-794). -/
def getOrganizations (cfg : Config) (f : Fetch) (args : JObj) : HandlerResult :=
  toTextResult (makeRequest cfg f "/organizations" ⟨"GET", none, some (getOrganizationsParams args)⟩)
    (fun d => jsonStringify d)

/-- getOrganization handler (src/index.ts lines 796-807). -/
def getOrganization (cfg : Config) (f : Fetch) (id : String) : HandlerResult :=
  toTextResult (makeRequest cfg f ("/organizations/" ++ id) ⟨"GET", none, none⟩)
    (fun d => jsonStringify d)

/-- createOrganization handler (src/index.ts lines 809-823). -/
def createOrganization (cfg : Config) (f : Fetch) (args : JObj) : HandlerResult :=
  toTextResult (makeRequest cfg f "/organizations" ⟨"POST", some args, none⟩)
    (fun d => "Organization created successfully: " ++ jsonStringify d)

/-- updateOrganization handler (src/index.ts lines 825-840). -/
def updateOrganization (cfg : Config) (f : Fetch) (id : String) (args : JObj) : HandlerResult :=
  toTextResult (makeRequest cfg f ("/organizations/" ++ id) ⟨"PUT", some (removeId args), none⟩)
    (fun d => "Organization updated successfully: " ++ jsonStringify d)

/-- deleteOrganization handler (src/index.ts lines 842-855). -/
def deleteOrganization (cfg : Config) (f : Fetch) (id : String) : HandlerResult :=
  toTextResult (makeRequest cfg f ("/organizations/" ++ id) ⟨"DELETE", none, none⟩)
    (fun _ => "Organization with ID " ++ id ++ " deleted successfully")

/-- getLists handler (src/index.ts lines 857-872); lists live under the
/segments path prefix. -/
def getLists (cfg : Config) (f : Fetch) (args : JObj) : HandlerResult :=
  toTextResult (makeRequest cfg f "/segments" ⟨"GET", none, some (getListsParams args)⟩)
    (fun d => jsonStringify d)

/-- getList handler (src/index.ts lines 874-885). -/
def getList (cfg : Config) (f : Fetch) (id : String) : HandlerResult :=
  toTextResult (makeRequest cfg f ("/segments/" ++ id) ⟨"GET", none, none⟩)
    (fun d => jsonStringify d)

/-- createList handler (src/index.ts lines 887-901). -/
def createList (cfg : Config) (f : Fetch) (args : JObj) : HandlerResult :=
  toTextResult (makeRequest cfg f "/segments" ⟨"POST", some args, none⟩)
    (fun d => "List created successfully: " ++ jsonStringify d)

/-- updateList handler (src/index.ts lines 903-918); note PATCH, not PUT. -/
def updateList (cfg : Config) (f : Fetch) (id : String) (args : JObj) : HandlerResult :=
  toTextResult (makeRequest cfg f ("/segments/" ++ id) ⟨"PATCH", some (removeId args), none⟩)
    (fun d => "List updated successfully: " ++ jsonStringify d)

/-- deleteList handler (src/index.ts lines 920-933). -/
def deleteList (cfg : Config) (f : Fetch) (id : String) : HandlerResult :=
  toTextResult (makeRequest cfg f ("/segments/" ++ id) ⟨"DELETE", none, none⟩)
    (fun _ => "List with ID " ++ id ++ " deleted successfully")

/-- getTags handler (src/index.ts lines 935-950). -/
def getTags (cfg : Config) (f : Fetch) (args : JObj) : HandlerResult :=
  toTextResult (makeRequest cfg f "/tags" ⟨"GET", none, some (getTagsParams args)⟩)
    (fun d => jsonStringify d)

/-- getTag handler (src/index.ts lines 952-963). -/
def getTag (cfg : Config) (f : Fetch) (id : String) : HandlerResult :=
  toTextResult (makeRequest cfg f ("/tags/" ++ id) ⟨"GET", none, none⟩)
    (fun d => jsonStringify d)

/-- createTag handler (src/index.ts lines 965-979). -/
def createTag (cfg : Config) (f : Fetch) (args : JObj) : HandlerResult :=
  toTextResult (makeRequest cfg f "/tags" ⟨"POST", some args, none⟩)
    (fun d => "Tag created successfully: " ++ jsonStringify d)

/-- updateTag handler (src/index.ts lines 981-996); note PATCH, not PUT. -/
def updateTag (cfg : Config) (f : Fetch) (id : String) (args : JObj) : HandlerResult :=
  toTextResult (makeRequest cfg f ("/tags/" ++ id) ⟨"PATCH", some (removeId args), none⟩)
    (fun d => "Tag updated successfully: " ++ jsonStringify d)

/-- deleteTag handler (src/index.ts lines 998-1011). -/
def deleteTag (cfg : Config) (f : Fetch) (id : String) : HandlerResult :=
  toTextResult (makeRequest cfg f ("/tags/" ++ id) ⟨"DELETE", none, none⟩)
    (fun _ => "Tag with ID " ++ id ++ " deleted successfully")

/-- The id guard repeated in every identifier-requiring dispatch case
(e.g. src/index.ts lines 531-534): the arguments must be a non-null
object containing the key "id"; on success the id value is coerced with
String(args.id) and the whole arguments object is passed on. -/
def withIdArg (args : Option JObj) (f : String → JObj → HandlerResult) : HandlerResult :=
  match args with
  | none => (.error "Missing required parameter: id", [])
  | some a =>
    if hasProp a "id" then f ((getProp a "id").jsToString) a
    else (.error "Missing required parameter: id", [])

/-- The try-block of the call-tool dispatcher (src/index.ts lines
526-610): the switch over the tool name, with `args ||` defaulting the
arguments of the tools that take none.  The argument `args = none`
models a null or absent arguments member.  A JS switch on string labels
is a sequence of equality tests, rendered here as an if-chain in case
order. -/
def dispatch (cfg : Config) (f : Fetch) (name : String) (args : Option JObj) : HandlerResult :=
  if name = "get_people" then getPeople cfg f (args.getD [])
  else if name = "get_person" then withIdArg args (fun id _ => getPerson cfg f id)
  else if name = "create_person" then createPerson cfg f (args.getD [])
  else if name = "update_person" then withIdArg args (fun id a => updatePerson cfg f id a)
  else if name = "delete_person" then withIdArg args (fun id _ => deletePerson cfg f id)
  else if name = "get_tasks" then getTasks cfg f (args.getD [])
  else if name = "create_task" then createTask cfg f (args.getD [])
  else if name = "get_organizations" then getOrganizations cfg f (args.getD [])
  else if name = "get_organization" then withIdArg args (fun id _ => getOrganization cfg f id)
  else if name = "create_organization" then createOrganization cfg f (args.getD [])
  else if name = "update_organization" then withIdArg args (fun id a => updateOrganization cfg f id a)
  else if name = "delete_organization" then withIdArg args (fun id _ => deleteOrganization cfg f id)
  else if name = "get_lists" then getLists cfg f (args.getD [])
  else if name = "get_list" then withIdArg args (fun id _ => getList cfg f id)
  else if name = "create_list" then createList cfg f (args.getD [])
  else if name = "update_list" then withIdArg args (fun id a => updateList cfg f id a)
  else if name = "delete_list" then withIdArg args (fun id _ => deleteList cfg f id)
  else if name = "get_tags" then getTags cfg f (args.getD [])
  else if name = "get_tag" then withIdArg args (fun id _ => getTag cfg f id)
  else if name = "create_tag" then createTag cfg f (args.getD [])
  else if name = "update_tag" then withIdArg args (fun id a => updateTag cfg f id a)
  else if name = "delete_tag" then withIdArg args (fun id _ => deleteTag cfg f id)
  else (.error ("Unknown tool: " ++ name), [])

/-- The observable outcome of one invocation: the envelope handed back
to the host, plus the HTTP requests issued while producing it. -/
structure CallResult where
  envelope : Envelope
  requests : List HttpRequest
deriving DecidableEq, Repr

/-- The full call-tool request handler (src/index.ts lines 523-623):
run the switch, and catch any thrown error into the uniform
"Error: "-prefixed envelope. -/
def callTool (cfg : Config) (f : Fetch) (name : String) (args : Option JObj) : CallResult :=
  match dispatch cfg f name args with
  | (.ok env, reqs) => ⟨env, reqs⟩
  | (.error msg, reqs) => ⟨errorEnvelope msg, reqs⟩

/-- The tool names declared by the ListTools handler, in declaration
order (src/index.ts lines 47-521). -/
def toolCatalogNames : List String :=
  ["get_people", "get_person", "create_person", "update_person", "delete_person",
   "get_tasks", "create_task",
   "get_organizations", "get_organization", "create_organization",
   "update_organization", "delete_organization",
   "get_lists", "get_list", "create_list", "update_list", "delete_list",
   "get_tags", "get_tag", "create_tag", "update_tag", "delete_tag"]

/-- The case labels of the dispatcher switch, in case order
(src/index.ts lines 528-607). -/
def dispatchCaseNames : List String :=
  ["get_people", "get_person", "create_person", "update_person", "delete_person",
   "get_tasks", "create_task",
   "get_organizations", "get_organization", "create_organization",
   "update_organization", "delete_organization",
   "get_lists", "get_list", "create_list", "update_list", "delete_list",
   "get_tags", "get_tag", "create_tag", "update_tag", "delete_tag"]

/-- The twelve tools whose dispatch case performs the id guard. -/
def idToolNames : List String :=
  ["get_person", "update_person", "delete_person",
   "get_organization", "update_organization", "delete_organization",
   "get_list", "update_list", "delete_list",
   "get_tag", "update_tag", "delete_tag"]

/-- Does the (possibly absent) arguments object pass the id guard. -/
def argsHasId : Option JObj → Bool
  | none => false
  | some a => hasProp a "id"

/-- A configuration with the API key unset, as when ROGERROGER_API_KEY
is absent from the environment. -/
def cfgNoKey : Config := ⟨"", "https://api.rogerroger.io"⟩

/-- A configured client with a concrete key and the default base URL. -/
def cfgProd : Config := ⟨"k", "https://api.rogerroger.io"⟩

/-- A network oracle whose every fetch rejects. -/
def fetchDown : Fetch := fun _ => .networkError "network failure"

/-- A network oracle answering every request with 200 and a body that
parses as JSON null. -/
def fetchOkNull : Fetch := fun _ => .response 200 "null" (.ok .jnull)

/-- A network oracle answering every request with 200 and a body that
response.json() fails to parse. -/
def fetchBadBody : Fetch :=
  fun _ => .response 200 "No Content" (.error "invalid json response body")

/-- Every successful outcome of this handler result is a single-item
text envelope. -/
def OkText (r : HandlerResult) : Prop :=
  ∀ env, r.1 = .ok env → ∃ t, env = textEnvelope t

/-- The query-forwarding contract of a list handler: a key is bound in
the outgoing query record exactly when it is one of the handler's
optional parameters and its input value is present and truthy, and the
bound value is the JS string coercion of the input value. -/
def forwardsTruthy (allowed : List String) (build : JObj → List (String × String)) : Prop :=
  ∀ (args : JObj) (k : String),
    (build args).lookup k =
      if k ∈ allowed ∧ (getProp args k).truthy = true
      then some ((getProp args k).jsToString)
      else none

/-! ## Helper lemmas -/

theorem toTextResult_snd (r : Except String JVal × List HttpRequest) (g : JVal → String) :
    (toTextResult r g).2 = r.2 := rfl

theorem callTool_requests (cfg : Config) (f : Fetch) (name : String) (args : Option JObj) :
    (callTool cfg f name args).requests = (dispatch cfg f name args).2 := by
  unfold callTool
  split <;> (rename_i heq; rw [heq])

theorem callTool_of_error (cfg : Config) (f : Fetch) (name : String) (args : Option JObj)
    (msg : String) (h : dispatch cfg f name args = (.error msg, [])) :
    callTool cfg f name args = ⟨errorEnvelope msg, []⟩ := by
  unfold callTool
  rw [h]

theorem makeRequest_noKey (cfg : Config) (f : Fetch) (ep : String) (o : ReqOptions)
    (hk : cfg.apiKey = "") :
    makeRequest cfg f ep o = (.error "ROGERROGER_API_KEY environment variable is required", []) := by
  unfold makeRequest
  rw [if_pos hk]

theorem makeRequest_snd (cfg : Config) (f : Fetch) (ep : String) (o : ReqOptions)
    (hk : ¬cfg.apiKey = "") :
    (makeRequest cfg f ep o).2 =
      [⟨buildUrl cfg ep o.params, o.method, stdHeaders cfg.apiKey, o.body⟩] := by
  simp only [makeRequest, if_neg hk]
  split
  · rfl
  · split <;> rfl

theorem makeRequest_ok (cfg : Config) (f : Fetch) (ep : String) (o : ReqOptions)
    (status : Nat) (bodyText : String) (j : JVal) (hk : ¬cfg.apiKey = "")
    (hf : f ⟨buildUrl cfg ep o.params, o.method, stdHeaders cfg.apiKey, o.body⟩ =
      .response status bodyText (.ok j))
    (h1 : 200 ≤ status) (h2 : status < 300) :
    makeRequest cfg f ep o =
      (.ok j, [⟨buildUrl cfg ep o.params, o.method, stdHeaders cfg.apiKey, o.body⟩]) := by
  simp only [makeRequest, if_neg hk]
  rw [hf]
  dsimp only
  rw [if_pos ⟨h1, h2⟩]

theorem hasProp_of_lookup {o : JObj} {k : String} {v : JVal} (h : o.lookup k = some v) :
    hasProp o k = true := by
  simp [hasProp, h]

theorem getProp_of_lookup {o : JObj} {k : String} {v : JVal} (h : o.lookup k = some v) :
    getProp o k = v := by
  simp [getProp, h]

theorem withIdArg_of_missing (args : Option JObj) (f : String → JObj → HandlerResult)
    (h : argsHasId args = false) :
    withIdArg args f = (.error "Missing required parameter: id", []) := by
  cases args with
  | none => rfl
  | some a =>
    simp only [argsHasId] at h
    simp [withIdArg, h]

theorem withIdArg_of_hasId (a : JObj) (f : String → JObj → HandlerResult)
    (h : hasProp a "id" = true) :
    withIdArg (some a) f = f ((getProp a "id").jsToString) a := by
  simp [withIdArg, h]

theorem withIdArg_of_argsHasId (args : Option JObj) (f : String → JObj → HandlerResult)
    (h : argsHasId args = true) :
    withIdArg args f = f ((getProp (args.getD []) "id").jsToString) (args.getD []) := by
  cases args with
  | none => simp [argsHasId] at h
  | some a =>
    simp only [Option.getD]
    exact withIdArg_of_hasId a f (by simpa [argsHasId] using h)

theorem callTool_of_ok (cfg : Config) (f : Fetch) (name : String) (args : Option JObj)
    (env : Envelope) (reqs : List HttpRequest)
    (h : dispatch cfg f name args = (.ok env, reqs)) :
    callTool cfg f name args = ⟨env, reqs⟩ := by
  unfold callTool
  rw [h]

theorem okText_toText (r : Except String JVal × List HttpRequest) (g : JVal → String) :
    OkText (toTextResult r g) := by
  intro env h
  unfold toTextResult at h
  cases hr : r.1 with
  | error e => rw [hr] at h; simp [Except.map] at h
  | ok d =>
    rw [hr] at h
    simp only [Except.map, Except.ok.injEq] at h
    exact ⟨g d, h.symm⟩

theorem okText_pair_error (msg : String) (reqs : List HttpRequest) :
    OkText ((.error msg, reqs)) := by
  intro env h
  simp at h

theorem okText_withIdArg (args : Option JObj) (f : String → JObj → HandlerResult)
    (H : ∀ i a, OkText (f i a)) : OkText (withIdArg args f) := by
  cases args with
  | none => exact okText_pair_error _ _
  | some a =>
    cases hb : hasProp a "id" with
    | false =>
      rw [withIdArg_of_missing (some a) f (by simp [argsHasId, hb])]
      exact okText_pair_error _ _
    | true =>
      rw [withIdArg_of_hasId a f hb]
      exact H _ _

theorem dispatchEq_get_people (cfg : Config) (f : Fetch) (args : Option JObj) :
    dispatch cfg f "get_people" args = getPeople cfg f (args.getD []) := rfl

theorem dispatchEq_get_person (cfg : Config) (f : Fetch) (args : Option JObj) :
    dispatch cfg f "get_person" args = withIdArg args (fun id _ => getPerson cfg f id) := rfl

theorem dispatchEq_create_person (cfg : Config) (f : Fetch) (args : Option JObj) :
    dispatch cfg f "create_person" args = createPerson cfg f (args.getD []) := rfl

theorem dispatchEq_update_person (cfg : Config) (f : Fetch) (args : Option JObj) :
    dispatch cfg f "update_person" args = withIdArg args (fun id a => updatePerson cfg f id a) := rfl

theorem dispatchEq_delete_person (cfg : Config) (f : Fetch) (args : Option JObj) :
    dispatch cfg f "delete_person" args = withIdArg args (fun id _ => deletePerson cfg f id) := rfl

theorem dispatchEq_get_tasks (cfg : Config) (f : Fetch) (args : Option JObj) :
    dispatch cfg f "get_tasks" args = getTasks cfg f (args.getD []) := rfl

theorem dispatchEq_create_task (cfg : Config) (f : Fetch) (args : Option JObj) :
    dispatch cfg f "create_task" args = createTask cfg f (args.getD []) := rfl

theorem dispatchEq_get_organizations (cfg : Config) (f : Fetch) (args : Option JObj) :
    dispatch cfg f "get_organizations" args = getOrganizations cfg f (args.getD []) := rfl

theorem dispatchEq_get_organization (cfg : Config) (f : Fetch) (args : Option JObj) :
    dispatch cfg f "get_organization" args = withIdArg args (fun id _ => getOrganization cfg f id) := rfl

theorem dispatchEq_create_organization (cfg : Config) (f : Fetch) (args : Option JObj) :
    dispatch cfg f "create_organization" args = createOrganization cfg f (args.getD []) := rfl

theorem dispatchEq_update_organization (cfg : Config) (f : Fetch) (args : Option JObj) :
    dispatch cfg f "update_organization" args = withIdArg args (fun id a => updateOrganization cfg f id a) := rfl

theorem dispatchEq_delete_organization (cfg : Config) (f : Fetch) (args : Option JObj) :
    dispatch cfg f "delete_organization" args = withIdArg args (fun id _ => deleteOrganization cfg f id) := rfl

theorem dispatchEq_get_lists (cfg : Config) (f : Fetch) (args : Option JObj) :
    dispatch cfg f "get_lists" args = getLists cfg f (args.getD []) := rfl

theorem dispatchEq_get_list (cfg : Config) (f : Fetch) (args : Option JObj) :
    dispatch cfg f "get_list" args = withIdArg args (fun id _ => getList cfg f id) := rfl

theorem dispatchEq_create_list (cfg : Config) (f : Fetch) (args : Option JObj) :
    dispatch cfg f "create_list" args = createList cfg f (args.getD []) := rfl

theorem dispatchEq_update_list (cfg : Config) (f : Fetch) (args : Option JObj) :
    dispatch cfg f "update_list" args = withIdArg args (fun id a => updateList cfg f id a) := rfl

theorem dispatchEq_delete_list (cfg : Config) (f : Fetch) (args : Option JObj) :
    dispatch cfg f "delete_list" args = withIdArg args (fun id _ => deleteList cfg f id) := rfl

theorem dispatchEq_get_tags (cfg : Config) (f : Fetch) (args : Option JObj) :
    dispatch cfg f "get_tags" args = getTags cfg f (args.getD []) := rfl

theorem dispatchEq_get_tag (cfg : Config) (f : Fetch) (args : Option JObj) :
    dispatch cfg f "get_tag" args = withIdArg args (fun id _ => getTag cfg f id) := rfl

theorem dispatchEq_create_tag (cfg : Config) (f : Fetch) (args : Option JObj) :
    dispatch cfg f "create_tag" args = createTag cfg f (args.getD []) := rfl

theorem dispatchEq_update_tag (cfg : Config) (f : Fetch) (args : Option JObj) :
    dispatch cfg f "update_tag" args = withIdArg args (fun id a => updateTag cfg f id a) := rfl

theorem dispatchEq_delete_tag (cfg : Config) (f : Fetch) (args : Option JObj) :
    dispatch cfg f "delete_tag" args = withIdArg args (fun id _ => deleteTag cfg f id) := rfl

theorem dispatch_not_handled (cfg : Config) (f : Fetch) (name : String) (args : Option JObj)
    (h1 : name ≠ "get_people")
    (h2 : name ≠ "get_person")
    (h3 : name ≠ "create_person")
    (h4 : name ≠ "update_person")
    (h5 : name ≠ "delete_person")
    (h6 : name ≠ "get_tasks")
    (h7 : name ≠ "create_task")
    (h8 : name ≠ "get_organizations")
    (h9 : name ≠ "get_organization")
    (h10 : name ≠ "create_organization")
    (h11 : name ≠ "update_organization")
    (h12 : name ≠ "delete_organization")
    (h13 : name ≠ "get_lists")
    (h14 : name ≠ "get_list")
    (h15 : name ≠ "create_list")
    (h16 : name ≠ "update_list")
    (h17 : name ≠ "delete_list")
    (h18 : name ≠ "get_tags")
    (h19 : name ≠ "get_tag")
    (h20 : name ≠ "create_tag")
    (h21 : name ≠ "update_tag")
    (h22 : name ≠ "delete_tag") :
    dispatch cfg f name args = (.error ("Unknown tool: " ++ name), []) := by
  unfold dispatch
  rw [if_neg h1, if_neg h2, if_neg h3, if_neg h4, if_neg h5, if_neg h6, if_neg h7, if_neg h8, if_neg h9, if_neg h10, if_neg h11, if_neg h12, if_neg h13, if_neg h14, if_neg h15, if_neg h16, if_neg h17, if_neg h18, if_neg h19, if_neg h20, if_neg h21, if_neg h22]

theorem dispatch_okText (cfg : Config) (f : Fetch) (name : String) (args : Option JObj) :
    OkText (dispatch cfg f name args) := by
  by_cases hn : name ∈ dispatchCaseNames
  · fin_cases hn <;>
      first
        | (rw [dispatchEq_get_people]; exact okText_toText _ _)
        | (rw [dispatchEq_get_person]; exact okText_withIdArg _ _ (fun i a => okText_toText _ _))
        | (rw [dispatchEq_create_person]; exact okText_toText _ _)
        | (rw [dispatchEq_update_person]; exact okText_withIdArg _ _ (fun i a => okText_toText _ _))
        | (rw [dispatchEq_delete_person]; exact okText_withIdArg _ _ (fun i a => okText_toText _ _))
        | (rw [dispatchEq_get_tasks]; exact okText_toText _ _)
        | (rw [dispatchEq_create_task]; exact okText_toText _ _)
        | (rw [dispatchEq_get_organizations]; exact okText_toText _ _)
        | (rw [dispatchEq_get_organization]; exact okText_withIdArg _ _ (fun i a => okText_toText _ _))
        | (rw [dispatchEq_create_organization]; exact okText_toText _ _)
        | (rw [dispatchEq_update_organization]; exact okText_withIdArg _ _ (fun i a => okText_toText _ _))
        | (rw [dispatchEq_delete_organization]; exact okText_withIdArg _ _ (fun i a => okText_toText _ _))
        | (rw [dispatchEq_get_lists]; exact okText_toText _ _)
        | (rw [dispatchEq_get_list]; exact okText_withIdArg _ _ (fun i a => okText_toText _ _))
        | (rw [dispatchEq_create_list]; exact okText_toText _ _)
        | (rw [dispatchEq_update_list]; exact okText_withIdArg _ _ (fun i a => okText_toText _ _))
        | (rw [dispatchEq_delete_list]; exact okText_withIdArg _ _ (fun i a => okText_toText _ _))
        | (rw [dispatchEq_get_tags]; exact okText_toText _ _)
        | (rw [dispatchEq_get_tag]; exact okText_withIdArg _ _ (fun i a => okText_toText _ _))
        | (rw [dispatchEq_create_tag]; exact okText_toText _ _)
        | (rw [dispatchEq_update_tag]; exact okText_withIdArg _ _ (fun i a => okText_toText _ _))
        | (rw [dispatchEq_delete_tag]; exact okText_withIdArg _ _ (fun i a => okText_toText _ _))
  · simp only [dispatchCaseNames, List.mem_cons, List.not_mem_nil, or_false, not_or] at hn
    obtain ⟨h1, h2, h3, h4, h5, h6, h7, h8, h9, h10, h11, h12, h13, h14, h15, h16, h17, h18, h19, h20, h21, h22⟩ := hn
    rw [dispatch_not_handled cfg f name args h1 h2 h3 h4 h5 h6 h7 h8 h9 h10 h11 h12 h13 h14 h15 h16 h17 h18 h19 h20 h21 h22]
    exact okText_pair_error _ _


/-! ## Claim theorems -/

/-- C1: for every invocation -- any tool name and any argument object --
the call-tool dispatcher returns a well-formed single-element envelope
whose sole content item has type "text", it never propagates a failure
(callTool is a total function into CallResult), and whenever the
underlying handler dispatch fails with any thrown message the returned
envelope is exactly the errorEnvelope of that message, whose text is
"Error: " followed by the cause. -/
theorem callToolUniformEnvelope (cfg : Config) (f : Fetch) (name : String) (args : Option JObj) :
    ((callTool cfg f name args).envelope.content.map ContentItem.type = ["text"])
    ∧ (∀ msg, (dispatch cfg f name args).1 = .error msg →
        (callTool cfg f name args).envelope = errorEnvelope msg)
    ∧ (∀ msg, (errorEnvelope msg).content.map ContentItem.text = ["Error: " ++ msg]) := by
  refine ⟨?_, ?_, fun msg => rfl⟩
  · unfold callTool
    split
    · rename_i env reqs heq
      obtain ⟨t, rfl⟩ := dispatch_okText cfg f name args env (by rw [heq])
      rfl
    · rfl
  · intro msg h
    unfold callTool
    split
    · rename_i env reqs heq
      rw [heq] at h
      simp at h
    · rename_i m reqs heq
      rw [heq] at h
      simp only [Except.error.injEq] at h
      rw [h]

/-- Witness for C1 at a concrete failing invocation (unknown tool). -/
theorem callToolUniformEnvelopeWitness :
    (callTool cfgProd fetchDown "bogus" none).envelope =
      errorEnvelope ("Unknown tool: " ++ "bogus") :=
  (callToolUniformEnvelope cfgProd fetchDown "bogus" none).2.1 ("Unknown tool: " ++ "bogus") rfl

/-- C3: invoking any of the twelve identifier-requiring tools with a
null/absent arguments value or one lacking the key "id" yields exactly
the envelope text "Error: Missing required parameter: id" and issues no
HTTP request. -/
theorem missingIdRejected :
    ∀ name ∈ idToolNames, ∀ (cfg : Config) (f : Fetch) (args : Option JObj),
      argsHasId args = false →
      callTool cfg f name args = ⟨errorEnvelope "Missing required parameter: id", []⟩ := by
  intro name hn cfg f args h
  fin_cases hn <;>
    first
        | exact callTool_of_error _ _ _ _ _ (by rw [dispatchEq_get_person]; exact withIdArg_of_missing _ _ h)
        | exact callTool_of_error _ _ _ _ _ (by rw [dispatchEq_update_person]; exact withIdArg_of_missing _ _ h)
        | exact callTool_of_error _ _ _ _ _ (by rw [dispatchEq_delete_person]; exact withIdArg_of_missing _ _ h)
        | exact callTool_of_error _ _ _ _ _ (by rw [dispatchEq_get_organization]; exact withIdArg_of_missing _ _ h)
        | exact callTool_of_error _ _ _ _ _ (by rw [dispatchEq_update_organization]; exact withIdArg_of_missing _ _ h)
        | exact callTool_of_error _ _ _ _ _ (by rw [dispatchEq_delete_organization]; exact withIdArg_of_missing _ _ h)
        | exact callTool_of_error _ _ _ _ _ (by rw [dispatchEq_get_list]; exact withIdArg_of_missing _ _ h)
        | exact callTool_of_error _ _ _ _ _ (by rw [dispatchEq_update_list]; exact withIdArg_of_missing _ _ h)
        | exact callTool_of_error _ _ _ _ _ (by rw [dispatchEq_delete_list]; exact withIdArg_of_missing _ _ h)
        | exact callTool_of_error _ _ _ _ _ (by rw [dispatchEq_get_tag]; exact withIdArg_of_missing _ _ h)
        | exact callTool_of_error _ _ _ _ _ (by rw [dispatchEq_update_tag]; exact withIdArg_of_missing _ _ h)
        | exact callTool_of_error _ _ _ _ _ (by rw [dispatchEq_delete_tag]; exact withIdArg_of_missing _ _ h)

/-- Witness for C3: get_person invoked with absent arguments. -/
theorem missingIdRejectedWitness :
    callTool cfgProd fetchDown "get_person" none =
      ⟨errorEnvelope "Missing required parameter: id", []⟩ :=
  missingIdRejected "get_person" (by decide) cfgProd fetchDown none rfl

/-- C4 counterexample: with the API key empty, invoking the
network-backed tool get_person with absent arguments yields the
missing-id error envelope, not the missing-key envelope, because the id
guard runs before the handler reaches the key check.  Hence not every
invocation of the 22 tools yields the key-error text when the key is
empty. -/
theorem missingKeyCounterexample :
    callTool cfgNoKey fetchDown "get_person" none =
      ⟨errorEnvelope "Missing required parameter: id", []⟩
    ∧ errorEnvelope "Missing required parameter: id" ≠
        errorEnvelope "ROGERROGER_API_KEY environment variable is required" :=
  ⟨rfl, by decide⟩

/-- C4 (amended): with Config.apiKey empty, every invocation of the 22
tools that passes the tool's argument validation (for identifier-requiring
tools: arguments containing the key "id"; for the others: any arguments)
yields exactly the envelope text "Error: ROGERROGER_API_KEY environment
variable is required" and issues no HTTP request -- the key check
precedes URL construction and the fetch call. -/
theorem missingKeyShortCircuit :
    ∀ name ∈ dispatchCaseNames, ∀ (cfg : Config) (f : Fetch) (args : Option JObj),
      cfg.apiKey = "" → (name ∈ idToolNames → argsHasId args = true) →
      callTool cfg f name args =
        ⟨errorEnvelope "ROGERROGER_API_KEY environment variable is required", []⟩ := by
  intro name hn cfg f args hk hid
  fin_cases hn <;>
    first
        | exact callTool_of_error _ _ _ _ _ (by
            rw [dispatchEq_get_people]; unfold getPeople
            rw [makeRequest_noKey _ _ _ _ hk]; rfl)
        | exact callTool_of_error _ _ _ _ _ (by
            rw [dispatchEq_get_person, withIdArg_of_argsHasId _ _ (hid (by decide))]
            unfold getPerson
            rw [makeRequest_noKey _ _ _ _ hk]; rfl)
        | exact callTool_of_error _ _ _ _ _ (by
            rw [dispatchEq_create_person]; unfold createPerson
            rw [makeRequest_noKey _ _ _ _ hk]; rfl)
        | exact callTool_of_error _ _ _ _ _ (by
            rw [dispatchEq_update_person, withIdArg_of_argsHasId _ _ (hid (by decide))]
            unfold updatePerson
            rw [makeRequest_noKey _ _ _ _ hk]; rfl)
        | exact callTool_of_error _ _ _ _ _ (by
            rw [dispatchEq_delete_person, withIdArg_of_argsHasId _ _ (hid (by decide))]
            unfold deletePerson
            rw [makeRequest_noKey _ _ _ _ hk]; rfl)
        | exact callTool_of_error _ _ _ _ _ (by
            rw [dispatchEq_get_tasks]; unfold getTasks
            rw [makeRequest_noKey _ _ _ _ hk]; rfl)
        | exact callTool_of_error _ _ _ _ _ (by
            rw [dispatchEq_create_task]; unfold createTask
            rw [makeRequest_noKey _ _ _ _ hk]; rfl)
        | exact callTool_of_error _ _ _ _ _ (by
            rw [dispatchEq_get_organizations]; unfold getOrganizations
            rw [makeRequest_noKey _ _ _ _ hk]; rfl)
        | exact callTool_of_error _ _ _ _ _ (by
            rw [dispatchEq_get_organization, withIdArg_of_argsHasId _ _ (hid (by decide))]
            unfold getOrganization
            rw [makeRequest_noKey _ _ _ _ hk]; rfl)
        | exact callTool_of_error _ _ _ _ _ (by
            rw [dispatchEq_create_organization]; unfold createOrganization
            rw [makeRequest_noKey _ _ _ _ hk]; rfl)
        | exact callTool_of_error _ _ _ _ _ (by
            rw [dispatchEq_update_organization, withIdArg_of_argsHasId _ _ (hid (by decide))]
            unfold updateOrganization
            rw [makeRequest_noKey _ _ _ _ hk]; rfl)
        | exact callTool_of_error _ _ _ _ _ (by
            rw [dispatchEq_delete_organization, withIdArg_of_argsHasId _ _ (hid (by decide))]
            unfold deleteOrganization
            rw [makeRequest_noKey _ _ _ _ hk]; rfl)
        | exact callTool_of_error _ _ _ _ _ (by
            rw [dispatchEq_get_lists]; unfold getLists
            rw [makeRequest_noKey _ _ _ _ hk]; rfl)
        | exact callTool_of_error _ _ _ _ _ (by
            rw [dispatchEq_get_list, withIdArg_of_argsHasId _ _ (hid (by decide))]
            unfold getList
            rw [makeRequest_noKey _ _ _ _ hk]; rfl)
        | exact callTool_of_error _ _ _ _ _ (by
            rw [dispatchEq_create_list]; unfold createList
            rw [makeRequest_noKey _ _ _ _ hk]; rfl)
        | exact callTool_of_error _ _ _ _ _ (by
            rw [dispatchEq_update_list, withIdArg_of_argsHasId _ _ (hid (by decide))]
            unfold updateList
            rw [makeRequest_noKey _ _ _ _ hk]; rfl)
        | exact callTool_of_error _ _ _ _ _ (by
            rw [dispatchEq_delete_list, withIdArg_of_argsHasId _ _ (hid (by decide))]
            unfold deleteList
            rw [makeRequest_noKey _ _ _ _ hk]; rfl)
        | exact callTool_of_error _ _ _ _ _ (by
            rw [dispatchEq_get_tags]; unfold getTags
            rw [makeRequest_noKey _ _ _ _ hk]; rfl)
        | exact callTool_of_error _ _ _ _ _ (by
            rw [dispatchEq_get_tag, withIdArg_of_argsHasId _ _ (hid (by decide))]
            unfold getTag
            rw [makeRequest_noKey _ _ _ _ hk]; rfl)
        | exact callTool_of_error _ _ _ _ _ (by
            rw [dispatchEq_create_tag]; unfold createTag
            rw [makeRequest_noKey _ _ _ _ hk]; rfl)
        | exact callTool_of_error _ _ _ _ _ (by
            rw [dispatchEq_update_tag, withIdArg_of_argsHasId _ _ (hid (by decide))]
            unfold updateTag
            rw [makeRequest_noKey _ _ _ _ hk]; rfl)
        | exact callTool_of_error _ _ _ _ _ (by
            rw [dispatchEq_delete_tag, withIdArg_of_argsHasId _ _ (hid (by decide))]
            unfold deleteTag
            rw [makeRequest_noKey _ _ _ _ hk]; rfl)

/-- Witness for C4 (amended): create_person with no arguments and an
empty key. -/
theorem missingKeyShortCircuitWitness :
    callTool cfgNoKey fetchDown "create_person" none =
      ⟨errorEnvelope "ROGERROGER_API_KEY environment variable is required", []⟩ :=
  missingKeyShortCircuit "create_person" (by decide) cfgNoKey fetchDown none rfl (by decide)


/-- C5: for every arguments object binding "id" to a value v,
update_person issues exactly one request: a PUT to baseUrl/people/(the
string coercion of v) whose body is the arguments object with the id
field removed and every other field unchanged, in order. -/
theorem updatePersonRequestBody :
    ∀ (cfg : Config) (f : Fetch) (args : JObj) (v : JVal),
      cfg.apiKey ≠ "" → args.lookup "id" = some v →
      (callTool cfg f "update_person" (some args)).requests =
        [⟨cfg.baseUrl ++ "/people/" ++ v.jsToString, "PUT",
          stdHeaders cfg.apiKey, some (removeId args)⟩] := by
  intro cfg f args v hk hv
  rw [callTool_requests, dispatchEq_update_person,
      withIdArg_of_hasId _ _ (hasProp_of_lookup hv), getProp_of_lookup hv]
  unfold updatePerson
  rw [toTextResult_snd, makeRequest_snd _ _ _ _ hk]
  simp only [buildUrl]
  rw [String.append_assoc]

/-- Witness for C5 at the spec's example input. -/
theorem updatePersonRequestBodyWitness :
    (callTool cfgProd fetchDown "update_person"
        (some [("id", JVal.jstr "1"), ("phone", JVal.jstr "555")])).requests =
      [⟨cfgProd.baseUrl ++ "/people/" ++ (JVal.jstr "1").jsToString, "PUT",
        stdHeaders cfgProd.apiKey,
        some (removeId [("id", JVal.jstr "1"), ("phone", JVal.jstr "555")])⟩] :=
  updatePersonRequestBody cfgProd fetchDown
    [("id", JVal.jstr "1"), ("phone", JVal.jstr "555")] (JVal.jstr "1") (by decide) rfl

/-- C6: update_list issues PATCH to baseUrl/segments/(id) and update_tag
issues PATCH to baseUrl/tags/(id), each with body equal to the arguments
minus the id field, while update_person and update_organization use
method PUT. -/
theorem updateMethodsAndPaths :
    ∀ (cfg : Config) (f : Fetch) (args : JObj) (v : JVal),
      cfg.apiKey ≠ "" → args.lookup "id" = some v →
      ((callTool cfg f "update_list" (some args)).requests =
        [⟨cfg.baseUrl ++ "/segments/" ++ v.jsToString, "PATCH",
          stdHeaders cfg.apiKey, some (removeId args)⟩])
      ∧ ((callTool cfg f "update_tag" (some args)).requests =
        [⟨cfg.baseUrl ++ "/tags/" ++ v.jsToString, "PATCH",
          stdHeaders cfg.apiKey, some (removeId args)⟩])
      ∧ ((callTool cfg f "update_person" (some args)).requests.map HttpRequest.method = ["PUT"])
      ∧ ((callTool cfg f "update_organization" (some args)).requests.map HttpRequest.method
          = ["PUT"]) := by
  intro cfg f args v hk hv
  refine ⟨?_, ?_, ?_, ?_⟩
  · rw [callTool_requests, dispatchEq_update_list,
        withIdArg_of_hasId _ _ (hasProp_of_lookup hv), getProp_of_lookup hv]
    unfold updateList
    rw [toTextResult_snd, makeRequest_snd _ _ _ _ hk]
    simp only [buildUrl]
    rw [String.append_assoc]
  · rw [callTool_requests, dispatchEq_update_tag,
        withIdArg_of_hasId _ _ (hasProp_of_lookup hv), getProp_of_lookup hv]
    unfold updateTag
    rw [toTextResult_snd, makeRequest_snd _ _ _ _ hk]
    simp only [buildUrl]
    rw [String.append_assoc]
  · rw [callTool_requests, dispatchEq_update_person,
        withIdArg_of_hasId _ _ (hasProp_of_lookup hv), getProp_of_lookup hv]
    unfold updatePerson
    rw [toTextResult_snd, makeRequest_snd _ _ _ _ hk]
    rfl
  · rw [callTool_requests, dispatchEq_update_organization,
        withIdArg_of_hasId _ _ (hasProp_of_lookup hv), getProp_of_lookup hv]
    unfold updateOrganization
    rw [toTextResult_snd, makeRequest_snd _ _ _ _ hk]
    rfl

/-- Witness for C6 at a concrete update_list invocation. -/
theorem updateMethodsAndPathsWitness :
    (callTool cfgProd fetchDown "update_list"
        (some [("id", JVal.jstr "5"), ("title", JVal.jstr "T")])).requests =
      [⟨cfgProd.baseUrl ++ "/segments/" ++ (JVal.jstr "5").jsToString, "PATCH",
        stdHeaders cfgProd.apiKey,
        some (removeId [("id", JVal.jstr "5"), ("title", JVal.jstr "T")])⟩] :=
  (updateMethodsAndPaths cfgProd fetchDown
    [("id", JVal.jstr "5"), ("title", JVal.jstr "T")] (JVal.jstr "5") (by decide) rfl).1

/-- C10: the id guard checks only the presence of the key "id", never
its value or type -- with any arguments containing that key (whatever
the value), every identifier-requiring tool proceeds past validation
(reaching the API-key check when the key is empty); and the value is
coerced with the JS string coercion into the request path, so
get_person with id 42 targets /people/42, id null targets /people/null,
and id "" targets the collection path /people/. -/
theorem idValueNeverValidated :
    (∀ name ∈ idToolNames, ∀ (cfg : Config) (f : Fetch) (args : Option JObj),
        argsHasId args = true → cfg.apiKey = "" →
        callTool cfg f name args =
          ⟨errorEnvelope "ROGERROGER_API_KEY environment variable is required", []⟩)
    ∧ (∀ (cfg : Config) (f : Fetch) (args : JObj) (v : JVal),
        cfg.apiKey ≠ "" → args.lookup "id" = some v →
        (callTool cfg f "get_person" (some args)).requests =
          [⟨cfg.baseUrl ++ "/people/" ++ v.jsToString, "GET", stdHeaders cfg.apiKey, none⟩])
    ∧ ((callTool cfgProd fetchDown "get_person"
          (some [("id", JVal.jnum 42)])).requests.map HttpRequest.url
        = ["https://api.rogerroger.io/people/42"])
    ∧ ((callTool cfgProd fetchDown "get_person"
          (some [("id", JVal.jnull)])).requests.map HttpRequest.url
        = ["https://api.rogerroger.io/people/null"])
    ∧ ((callTool cfgProd fetchDown "get_person"
          (some [("id", JVal.jstr "")])).requests.map HttpRequest.url
        = ["https://api.rogerroger.io/people/"]) := by
  refine ⟨?_, ?_, rfl, rfl, rfl⟩
  · intro name hn cfg f args hid hk
    fin_cases hn <;>
      first
        | exact callTool_of_error _ _ _ _ _ (by
            rw [dispatchEq_get_person, withIdArg_of_argsHasId _ _ hid]
            unfold getPerson
            rw [makeRequest_noKey _ _ _ _ hk]; rfl)
        | exact callTool_of_error _ _ _ _ _ (by
            rw [dispatchEq_update_person, withIdArg_of_argsHasId _ _ hid]
            unfold updatePerson
            rw [makeRequest_noKey _ _ _ _ hk]; rfl)
        | exact callTool_of_error _ _ _ _ _ (by
            rw [dispatchEq_delete_person, withIdArg_of_argsHasId _ _ hid]
            unfold deletePerson
            rw [makeRequest_noKey _ _ _ _ hk]; rfl)
        | exact callTool_of_error _ _ _ _ _ (by
            rw [dispatchEq_get_organization, withIdArg_of_argsHasId _ _ hid]
            unfold getOrganization
            rw [makeRequest_noKey _ _ _ _ hk]; rfl)
        | exact callTool_of_error _ _ _ _ _ (by
            rw [dispatchEq_update_organization, withIdArg_of_argsHasId _ _ hid]
            unfold updateOrganization
            rw [makeRequest_noKey _ _ _ _ hk]; rfl)
        | exact callTool_of_error _ _ _ _ _ (by
            rw [dispatchEq_delete_organization, withIdArg_of_argsHasId _ _ hid]
            unfold deleteOrganization
            rw [makeRequest_noKey _ _ _ _ hk]; rfl)
        | exact callTool_of_error _ _ _ _ _ (by
            rw [dispatchEq_get_list, withIdArg_of_argsHasId _ _ hid]
            unfold getList
            rw [makeRequest_noKey _ _ _ _ hk]; rfl)
        | exact callTool_of_error _ _ _ _ _ (by
            rw [dispatchEq_update_list, withIdArg_of_argsHasId _ _ hid]
            unfold updateList
            rw [makeRequest_noKey _ _ _ _ hk]; rfl)
        | exact callTool_of_error _ _ _ _ _ (by
            rw [dispatchEq_delete_list, withIdArg_of_argsHasId _ _ hid]
            unfold deleteList
            rw [makeRequest_noKey _ _ _ _ hk]; rfl)
        | exact callTool_of_error _ _ _ _ _ (by
            rw [dispatchEq_get_tag, withIdArg_of_argsHasId _ _ hid]
            unfold getTag
            rw [makeRequest_noKey _ _ _ _ hk]; rfl)
        | exact callTool_of_error _ _ _ _ _ (by
            rw [dispatchEq_update_tag, withIdArg_of_argsHasId _ _ hid]
            unfold updateTag
            rw [makeRequest_noKey _ _ _ _ hk]; rfl)
        | exact callTool_of_error _ _ _ _ _ (by
            rw [dispatchEq_delete_tag, withIdArg_of_argsHasId _ _ hid]
            unfold deleteTag
            rw [makeRequest_noKey _ _ _ _ hk]; rfl)
  · intro cfg f args v hk hv
    rw [callTool_requests, dispatchEq_get_person,
        withIdArg_of_hasId _ _ (hasProp_of_lookup hv), getProp_of_lookup hv]
    unfold getPerson
    rw [toTextResult_snd, makeRequest_snd _ _ _ _ hk]
    simp only [buildUrl]
    rw [String.append_assoc]

/-- Witness for C10: a numeric id passes the guard and is coerced into
the path. -/
theorem idValueNeverValidatedWitness :
    (callTool cfgProd fetchDown "get_person" (some [("id", JVal.jnum 42)])).requests =
      [⟨cfgProd.baseUrl ++ "/people/" ++ (JVal.jnum 42).jsToString, "GET",
        stdHeaders cfgProd.apiKey, none⟩] :=
  idValueNeverValidated.2.1 cfgProd fetchDown [("id", JVal.jnum 42)] (JVal.jnum 42)
    (by decide) rfl


/-- C2 counterexample: delete_tag on id "t1" with a 2xx response whose
body is not valid JSON yields an error envelope, not the success text --
makeRequest awaits response.json() on every 2xx response, including
deletes, so the delete response body is parsed after all. -/
theorem deleteParsesBodyCounterexample :
    callTool cfgProd fetchBadBody "delete_tag" (some [("id", JVal.jstr "t1")]) =
      ⟨errorEnvelope "invalid json response body",
       [⟨"https://api.rogerroger.io/tags/t1", "DELETE", stdHeaders "k", none⟩]⟩
    ∧ fetchBadBody ⟨"https://api.rogerroger.io/tags/t1", "DELETE", stdHeaders "k", none⟩ =
        .response 200 "No Content" (.error "invalid json response body")
    ∧ errorEnvelope "invalid json response body" ≠
        textEnvelope "Tag with ID t1 deleted successfully" :=
  ⟨rfl, rfl, by decide⟩

/-- C2 (amended): for every delete operation whose single DELETE request
receives a 2xx response whose body parses as JSON, the invocation yields
exactly the text "(Resource) with ID (id) deleted successfully",
whatever the parsed payload j is (the payload is discarded, never
echoed); but the response body is parsed, and a 2xx response whose body
is not valid JSON yields an error envelope instead. -/
theorem deleteSuccessMessage :
    ∀ (name res pre : String),
      (name, res, pre) ∈ [("delete_person", "Person", "/people/"),
                          ("delete_organization", "Organization", "/organizations/"),
                          ("delete_list", "List", "/segments/"),
                          ("delete_tag", "Tag", "/tags/")] →
      ∀ (cfg : Config) (f : Fetch) (args : JObj) (v : JVal) (status : Nat)
        (bodyText : String) (j : JVal),
        cfg.apiKey ≠ "" → args.lookup "id" = some v →
        f ⟨cfg.baseUrl ++ pre ++ v.jsToString, "DELETE", stdHeaders cfg.apiKey, none⟩ =
          .response status bodyText (.ok j) →
        200 ≤ status → status < 300 →
        callTool cfg f name (some args) =
          ⟨textEnvelope (res ++ " with ID " ++ v.jsToString ++ " deleted successfully"),
           [⟨cfg.baseUrl ++ pre ++ v.jsToString, "DELETE", stdHeaders cfg.apiKey, none⟩]⟩ := by
  intro name res pre hmem cfg f args v status bodyText j hk hv hf h1 h2
  simp only [List.mem_cons, List.not_mem_nil, or_false, Prod.mk.injEq] at hmem
  rcases hmem with ⟨rfl, rfl, rfl⟩ | ⟨rfl, rfl, rfl⟩ | ⟨rfl, rfl, rfl⟩ | ⟨rfl, rfl, rfl⟩
  · refine callTool_of_ok _ _ _ _ _ _ ?_
    rw [dispatchEq_delete_person, withIdArg_of_hasId _ _ (hasProp_of_lookup hv), getProp_of_lookup hv]
    unfold deletePerson toTextResult
    rw [makeRequest_ok cfg f ("/people/" ++ v.jsToString) ⟨"DELETE", none, none⟩ status bodyText j hk
        (by rw [String.append_assoc] at hf; exact hf) h1 h2]
    dsimp only
    simp only [buildUrl]
    rw [← String.append_assoc]
    rfl
  · refine callTool_of_ok _ _ _ _ _ _ ?_
    rw [dispatchEq_delete_organization, withIdArg_of_hasId _ _ (hasProp_of_lookup hv), getProp_of_lookup hv]
    unfold deleteOrganization toTextResult
    rw [makeRequest_ok cfg f ("/organizations/" ++ v.jsToString) ⟨"DELETE", none, none⟩ status bodyText j hk
        (by rw [String.append_assoc] at hf; exact hf) h1 h2]
    dsimp only
    simp only [buildUrl]
    rw [← String.append_assoc]
    rfl
  · refine callTool_of_ok _ _ _ _ _ _ ?_
    rw [dispatchEq_delete_list, withIdArg_of_hasId _ _ (hasProp_of_lookup hv), getProp_of_lookup hv]
    unfold deleteList toTextResult
    rw [makeRequest_ok cfg f ("/segments/" ++ v.jsToString) ⟨"DELETE", none, none⟩ status bodyText j hk
        (by rw [String.append_assoc] at hf; exact hf) h1 h2]
    dsimp only
    simp only [buildUrl]
    rw [← String.append_assoc]
    rfl
  · refine callTool_of_ok _ _ _ _ _ _ ?_
    rw [dispatchEq_delete_tag, withIdArg_of_hasId _ _ (hasProp_of_lookup hv), getProp_of_lookup hv]
    unfold deleteTag toTextResult
    rw [makeRequest_ok cfg f ("/tags/" ++ v.jsToString) ⟨"DELETE", none, none⟩ status bodyText j hk
        (by rw [String.append_assoc] at hf; exact hf) h1 h2]
    dsimp only
    simp only [buildUrl]
    rw [← String.append_assoc]
    rfl

/-- Witness for C2 (amended): a concrete delete_tag call against a 200
response parsing as JSON null. -/
theorem deleteSuccessMessageWitness :
    callTool cfgProd fetchOkNull "delete_tag" (some [("id", JVal.jstr "t1")]) =
      ⟨textEnvelope ("Tag" ++ " with ID " ++ (JVal.jstr "t1").jsToString ++ " deleted successfully"),
       [⟨cfgProd.baseUrl ++ "/tags/" ++ (JVal.jstr "t1").jsToString, "DELETE",
         stdHeaders cfgProd.apiKey, none⟩]⟩ :=
  deleteSuccessMessage "delete_tag" "Tag" "/tags/" (by decide) cfgProd fetchOkNull
    [("id", JVal.jstr "t1")] (JVal.jstr "t1") 200 "null" JVal.jnull
    (by decide) rfl rfl (by decide) (by decide)


theorem lookup_append (l1 l2 : List (String × String)) (k : String) :
    (l1 ++ l2).lookup k = ((l1.lookup k).orElse (fun _ => l2.lookup k)) := by
  induction l1 with
  | nil => rfl
  | cons p l ih =>
    cases p with
    | mk a b =>
      simp only [List.cons_append, List.lookup]
      cases hab : (k == a) <;> simp [ih, Option.orElse]

theorem qparam_lookup (args : JObj) (key k : String) :
    (qparam args key).lookup k =
      if k = key ∧ (getProp args key).truthy = true
      then some ((getProp args key).jsToString) else none := by
  unfold qparam
  by_cases ht : (getProp args key).truthy = true
  · rw [if_pos ht]
    by_cases hk : k = key
    · subst hk; simp [List.lookup, ht]
    · cases hab : (k == key) with
      | true => exact absurd (eq_of_beq hab) hk
      | false => simp [List.lookup, hab, ht, hk]
  · rw [if_neg ht]
    simp [List.lookup, ht]

theorem forwardsTruthy_three (k1 k2 k3 : String)
    (h12 : k1 ≠ k2) (h13 : k1 ≠ k3) (h23 : k2 ≠ k3)
    (build : JObj → List (String × String))
    (hb : ∀ args, build args = qparam args k1 ++ qparam args k2 ++ qparam args k3) :
    forwardsTruthy [k1, k2, k3] build := by
  intro args k
  rw [hb, List.append_assoc, lookup_append, lookup_append,
      qparam_lookup, qparam_lookup, qparam_lookup]
  by_cases hk1 : k = k1 <;> by_cases hk2 : k = k2 <;> by_cases hk3 : k = k3 <;>
    cases h1t : (getProp args k1).truthy <;> cases h2t : (getProp args k2).truthy <;>
    cases h3t : (getProp args k3).truthy <;>
    simp_all [Option.orElse, List.mem_cons, List.not_mem_nil]

theorem forwardsTruthy_two (k1 k2 : String) (h12 : k1 ≠ k2)
    (build : JObj → List (String × String))
    (hb : ∀ args, build args = qparam args k1 ++ qparam args k2) :
    forwardsTruthy [k1, k2] build := by
  intro args k
  rw [hb, lookup_append, qparam_lookup, qparam_lookup]
  by_cases hk1 : k = k1 <;> by_cases hk2 : k = k2 <;>
    cases h1t : (getProp args k1).truthy <;> cases h2t : (getProp args k2).truthy <;>
    simp_all [Option.orElse, List.mem_cons, List.not_mem_nil]


/-- C7: for every list-style read operation, an optional query parameter
is bound in the outgoing query record exactly when it is present and
truthy in the input arguments (absent, zero and empty-string values are
omitted), the forwarded value is the JS string coercion of the input
value; and get_tasks with arguments binding only status to "open"
issues exactly GET baseUrl/tasks?status=open with no page or
itemsPerPage parameters. -/
theorem queryForwarding :
    forwardsTruthy ["page", "itemsPerPage", "q"] getPeopleParams
    ∧ forwardsTruthy ["page", "itemsPerPage", "q"] getOrganizationsParams
    ∧ forwardsTruthy ["page", "itemsPerPage"] getListsParams
    ∧ forwardsTruthy ["page", "itemsPerPage"] getTagsParams
    ∧ forwardsTruthy ["page", "itemsPerPage", "status"] getTasksParams
    ∧ (∀ (cfg : Config) (f : Fetch) (args : JObj),
        cfg.apiKey ≠ "" →
        (callTool cfg f "get_tasks" (some args)).requests =
          [⟨cfg.baseUrl ++ "/tasks" ++ "?" ++ encodeQuery (getTasksParams args), "GET",
            stdHeaders cfg.apiKey, none⟩])
    ∧ (∀ (cfg : Config) (f : Fetch),
        cfg.apiKey ≠ "" →
        (callTool cfg f "get_tasks" (some [("status", JVal.jstr "open")])).requests =
          [⟨cfg.baseUrl ++ "/tasks?status=open", "GET", stdHeaders cfg.apiKey, none⟩]) := by
  refine ⟨forwardsTruthy_three "page" "itemsPerPage" "q"
            (by decide) (by decide) (by decide) _ (fun args => rfl),
          forwardsTruthy_three "page" "itemsPerPage" "q"
            (by decide) (by decide) (by decide) _ (fun args => rfl),
          forwardsTruthy_two "page" "itemsPerPage" (by decide) _ (fun args => rfl),
          forwardsTruthy_two "page" "itemsPerPage" (by decide) _ (fun args => rfl),
          forwardsTruthy_three "page" "itemsPerPage" "status"
            (by decide) (by decide) (by decide) _ (fun args => rfl),
          ?_, ?_⟩
  · intro cfg f args hk
    rw [callTool_requests, dispatchEq_get_tasks]
    unfold getTasks
    rw [toTextResult_snd, makeRequest_snd _ _ _ _ hk]
    simp only [Option.getD, buildUrl]
  · intro cfg f hk
    rw [callTool_requests, dispatchEq_get_tasks]
    unfold getTasks
    rw [toTextResult_snd, makeRequest_snd _ _ _ _ hk]
    simp only [Option.getD, buildUrl]
    rw [show encodeQuery (getTasksParams [("status", JVal.jstr "open")]) = "status=open" from rfl]
    rw [String.append_assoc, String.append_assoc]
    rfl

/-- Witness for C7: the spec's concrete get_tasks example. -/
theorem queryForwardingWitness :
    (callTool cfgProd fetchDown "get_tasks" (some [("status", JVal.jstr "open")])).requests =
      [⟨cfgProd.baseUrl ++ "/tasks?status=open", "GET", stdHeaders cfgProd.apiKey, none⟩] :=
  queryForwarding.2.2.2.2.2.2 cfgProd fetchDown (by decide)

/-- C8 counterexample: get_people invoked with empty arguments has an
empty outgoing query record, yet the issued URL is baseUrl/people? with
a trailing separator -- the "?" is appended whenever a params record is
passed to makeRequest (all list handlers always pass one), not only
when the encoded query is non-empty. -/
theorem urlSeparatorCounterexample :
    getPeopleParams [] = []
    ∧ (callTool cfgProd fetchDown "get_people" (some [])).requests.map HttpRequest.url =
        ["https://api.rogerroger.io/people?"]
    ∧ ("https://api.rogerroger.io/people?" : String) ≠
        "https://api.rogerroger.io" ++ "/people" :=
  ⟨rfl, rfl, by decide⟩

/-- C8 (amended): the URL built by makeRequest is baseUrl + path when no
params record is passed (get-by-id, create and delete handlers), and
baseUrl + path + "?" + the URL-encoded query string whenever a params
record is passed (every list handler passes one, possibly empty), so in
particular get_people with empty arguments issues baseUrl/people? with
an empty query after the separator. -/
theorem urlSeparatorRule :
    (∀ (cfg : Config) (f : Fetch) (ep m : String) (b : Option JObj),
        cfg.apiKey ≠ "" →
        (makeRequest cfg f ep ⟨m, b, none⟩).2.map HttpRequest.url = [cfg.baseUrl ++ ep])
    ∧ (∀ (cfg : Config) (f : Fetch) (ep m : String) (b : Option JObj)
        (ps : List (String × String)),
        cfg.apiKey ≠ "" →
        (makeRequest cfg f ep ⟨m, b, some ps⟩).2.map HttpRequest.url =
          [cfg.baseUrl ++ ep ++ "?" ++ encodeQuery ps])
    ∧ (∀ (cfg : Config) (f : Fetch),
        cfg.apiKey ≠ "" →
        (callTool cfg f "get_people" (some [])).requests.map HttpRequest.url =
          [cfg.baseUrl ++ "/people?"]) := by
  refine ⟨?_, ?_, ?_⟩
  · intro cfg f ep m b hk
    rw [makeRequest_snd _ _ _ _ hk]
    rfl
  · intro cfg f ep m b ps hk
    rw [makeRequest_snd _ _ _ _ hk]
    rfl
  · intro cfg f hk
    rw [callTool_requests, dispatchEq_get_people]
    unfold getPeople
    rw [toTextResult_snd, makeRequest_snd _ _ _ _ hk]
    simp only [Option.getD, buildUrl]
    rw [show encodeQuery (getPeopleParams []) = "" from rfl]
    rw [String.append_assoc, String.append_assoc]
    rfl

/-- Witness for C8 (amended) at a concrete configuration. -/
theorem urlSeparatorRuleWitness :
    (callTool cfgProd fetchDown "get_people" (some [])).requests.map HttpRequest.url =
      [cfgProd.baseUrl ++ "/people?"] :=
  urlSeparatorRule.2.2 cfgProd fetchDown (by decide)

/-- C9: the catalog name list and the dispatcher case-label list are
equal (and duplicate-free, so each catalog name has exactly one handler
case and conversely); semantically, every name outside the case-label
list falls to the unknown-tool envelope with no request issued, and
every name in it is routed to a handler (its probe outcome is not the
unknown-tool envelope). -/
theorem catalogMatchesDispatcher :
    toolCatalogNames = dispatchCaseNames
    ∧ toolCatalogNames.Nodup
    ∧ (∀ name, name ∉ dispatchCaseNames →
        ∀ (cfg : Config) (f : Fetch) (args : Option JObj),
          callTool cfg f name args = ⟨errorEnvelope ("Unknown tool: " ++ name), []⟩)
    ∧ (∀ name ∈ dispatchCaseNames,
        (callTool cfgNoKey fetchDown name (some [("id", JVal.jstr "x")])).envelope ≠
          errorEnvelope ("Unknown tool: " ++ name)) := by
  refine ⟨rfl, by decide, ?_, ?_⟩
  · intro name h cfg f args
    simp only [dispatchCaseNames, List.mem_cons, List.not_mem_nil, or_false, not_or] at h
    obtain ⟨h1, h2, h3, h4, h5, h6, h7, h8, h9, h10, h11, h12, h13, h14, h15, h16, h17, h18, h19, h20, h21, h22⟩ := h
    exact callTool_of_error _ _ _ _ _
      (dispatch_not_handled cfg f name args h1 h2 h3 h4 h5 h6 h7 h8 h9 h10 h11 h12 h13 h14 h15 h16 h17 h18 h19 h20 h21 h22)
  · intro name h
    fin_cases h <;> decide

/-- Witness for C9 at a concrete unknown name. -/
theorem catalogMatchesDispatcherWitness :
    callTool cfgProd fetchDown "frobnicate" none =
      ⟨errorEnvelope ("Unknown tool: " ++ "frobnicate"), []⟩ :=
  catalogMatchesDispatcher.2.2.1 "frobnicate" (by decide) cfgProd fetchDown none

end RogerRogerMCP
